import Mathlib

/-!
Verification development for the identifier-resolution core of a container
CLI (`tutumcli/utils.py` and the tag commands of `tutumcli/commands.py`).

The Python functions are shallowly embedded as Lean functions.  Remote API
calls and the local container engine are modelled as explicit parameters:
a remote query is an `Except ApiErr` value (either a clean result or a
raised error), and the local engine state is the list of inspected
container records.  Python exceptions that the code raises or returns as
values are modelled by explicit sum types.
-/

namespace TutumCli

/-- A non-strict lookup outcome as the Python code handles it: either a
real resolved object, or an `ObjectNotFound` exception instance returned
as a value, or a `NonUniqueIdentifier` exception instance returned as a
value. -/
inductive PyVal (α : Type) where
  | obj (a : α)
  | objectNotFound
  | nonUniqueId
deriving DecidableEq, Repr

/-- Python `isinstance(x, ObjectNotFound)`. -/
def PyVal.isObjectNotFound : PyVal α → Bool
  | .objectNotFound => true
  | _ => false

/-- Python `isinstance(x, NonUniqueIdentifier)`. -/
def PyVal.isNonUnique : PyVal α → Bool
  | .nonUniqueId => true
  | _ => false

/-- Python `isinstance(x, Exception)`. -/
def PyVal.isException : PyVal α → Bool
  | .obj _ => false
  | _ => true

/-- Hexadecimal character class `[a-f0-9]` under `re.I`. -/
def isHexChar (c : Char) : Bool :=
  ('0' ≤ c && c ≤ '9') || ('a' ≤ c && c ≤ 'f') || ('A' ≤ c && c ≤ 'F')

/-- Which character is allowed at position `i` of the UUID4 pattern
`[a-f0-9]{8}-[a-f0-9]{4}-4[a-f0-9]{3}-[89ab][a-f0-9]{3}-[a-f0-9]{12}`
(case-insensitive). -/
def uuid4CharOk (i : Nat) (c : Char) : Bool :=
  if i == 8 || i == 13 || i == 18 || i == 23 then c == '-'
  else if i == 14 then c == '4'
  else if i == 19 then
    c == '8' || c == '9' || c == 'a' || c == 'b' || c == 'A' || c == 'B'
  else isHexChar c

/-- Embeds `is_uuid4` (utils.py:52-55): `re.match` of the anchored-at-start,
unanchored-at-end UUID4 pattern, i.e. the first 36 characters of the
identifier must spell a version-4 UUID. -/
def is_uuid4 (identifier : String) : Bool :=
  let cs := identifier.toList
  36 ≤ cs.length && (List.range 36).all (fun i => uuid4CharOk i (cs.getD i ' '))

/-- Errors that the remote-API capability can raise on its own:
a clean "no such object" fetch failure, or a transport-level failure. -/
inductive ApiErr where
  | notFoundErr
  | transportErr
deriving DecidableEq, Repr

/-- Exceptions that can escape a remote resolver: an uncaught error from
the API capability, or the resolver's own `ObjectNotFound` /
`NonUniqueIdentifier`. -/
inductive PyErr where
  | api (e : ApiErr)
  | objectNotFound
  | nonUniqueIdentifier
deriving DecidableEq, Repr

/-- Embeds `fetch_remote_container` (utils.py:58-78).  `fetchById` models
`tutum.Container.fetch(identifier)`, `listByName` models
`tutum.Container.list(unique_name=identifier)` and `listByUuidStart`
models `tutum.Container.list(uuid__startswith=identifier)`; each is the
result the remote capability would deliver, or the error it would raise.
The Python `or` evaluates the second list query only when the first one
returned a falsy (empty) result. -/
def fetch_remote_container (identifier : String) (raise_exceptions : Bool)
    (fetchById : Except ApiErr α) (listByName listByUuidStart : Except ApiErr (List α)) :
    Except PyErr (PyVal α) :=
  let inner : Except PyErr α :=
    if is_uuid4 identifier then
      match fetchById with
      | .ok x => .ok x
      | .error _ => .error .objectNotFound
    else
      match listByName with
      | .error e => .error (.api e)
      | .ok firstResults =>
        match (if firstResults.isEmpty then listByUuidStart else .ok firstResults) with
        | .error e => .error (.api e)
        | .ok objects_same_identifier =>
          match objects_same_identifier with
          | [x] => .ok x
          | [] => .error .objectNotFound
          | _ => .error .nonUniqueIdentifier
  match inner with
  | .ok x => .ok (.obj x)
  | .error .objectNotFound =>
      if raise_exceptions then .error .objectNotFound else .ok .objectNotFound
  | .error .nonUniqueIdentifier =>
      if raise_exceptions then .error .nonUniqueIdentifier else .ok .nonUniqueId
  | .error (.api e) => .error (.api e)

/-- Embeds `fetch_remote_app` (utils.py:81-100): textually the same algorithm as
`fetch_remote_container`, querying the Application endpoints instead. -/
def fetch_remote_app (identifier : String) (raise_exceptions : Bool)
    (fetchById : Except ApiErr α) (listByName listByUuidStart : Except ApiErr (List α)) :
    Except PyErr (PyVal α) :=
  let inner : Except PyErr α :=
    if is_uuid4 identifier then
      match fetchById with
      | .ok x => .ok x
      | .error _ => .error .objectNotFound
    else
      match listByName with
      | .error e => .error (.api e)
      | .ok firstResults =>
        match (if firstResults.isEmpty then listByUuidStart else .ok firstResults) with
        | .error e => .error (.api e)
        | .ok objects_same_identifier =>
          match objects_same_identifier with
          | [x] => .ok x
          | [] => .error .objectNotFound
          | _ => .error .nonUniqueIdentifier
  match inner with
  | .ok x => .ok (.obj x)
  | .error .objectNotFound =>
      if raise_exceptions then .error .objectNotFound else .ok .objectNotFound
  | .error .nonUniqueIdentifier =>
      if raise_exceptions then .error .nonUniqueIdentifier else .ok .nonUniqueId
  | .error (.api e) => .error (.api e)

/-- Modelled from the spec: the union-based search outcome §4.3 describes
("issue two queries — by exact name-equality field and by UUID-prefix
field — take the union; zero results → NotFound, exactly one → Resolved,
more than one → NonUnique").  Used only to compare the spec's words with
the source's first-nonempty-wins behaviour. -/
def spec_union_outcome [DecidableEq α] (listByName listByUuidStart : List α) : PyVal α :=
  match listByName ∪ listByUuidStart with
  | [] => .objectNotFound
  | [x] => .obj x
  | _ => .nonUniqueId

example : is_uuid4 "web" = false := by decide
example : is_uuid4 "12345678-1234-4123-8123-123456789012" = true := by decide
example : is_uuid4 "12345678-1234-5123-8123-123456789012" = false := by decide

/-- One entry of a `HostConfig.PortBindings` binding list. -/
structure PortBinding where
  HostIp : String
  HostPort : String
deriving DecidableEq, Repr

/-- The fields of `docker_client.inspect_container(...)` that
`get_current_apps_and_its_containers` reads.  `Name` keeps the leading
slash the engine prepends (the code strips it with `Name[1:]`);
`Created` is the container's creation instant, already parsed to the
same clock as the builder's `datetime.utcnow()`. -/
structure InspectedContainer where
  Name : String
  Id : String
  Image : String
  Cmd : Option (List String)
  Entrypoint : Option (List String)
  CpuShares : Nat
  Memory : Nat
  Env : List String
  Running : Bool
  ExitCode : Int
  Created : Nat
  PortBindings : Option (List (String × List PortBinding))
deriving DecidableEq, Repr

/-- Embeds `CONTAINER_SIZE` (utils.py:18-24): size name, cpu_shares, memory. -/
def CONTAINER_SIZE : List (String × Nat × Nat) :=
  [("XS", 256, 268435456), ("S", 512, 536870912), ("M", 1024, 1073741824),
   ("L", 2048, 2147483648), ("XL", 4096, 4294967286)]

/-- Embeds `get_size_from_cpu_shares` (utils.py:365-369). -/
def get_size_from_cpu_shares (cpu_shares_value : Nat) : Option String :=
  (CONTAINER_SIZE.find? (fun e => e.2.1 == cpu_shares_value)).map (·.1)

/-- Embeds `get_size_from_memory` (utils.py:372-376). -/
def get_size_from_memory (memory_value : Nat) : Option String :=
  (CONTAINER_SIZE.find? (fun e => e.2.2 == memory_value)).map (·.1)

/-- Python `s.split(sep)` for a one-character separator, on the
character list. -/
def splitOnChar (sep : Char) : List Char → List (List Char)
  | [] => [[]]
  | c :: rest =>
    let r := splitOnChar sep rest
    if c == sep then [] :: r
    else
      match r with
      | g :: gs => (c :: g) :: gs
      | [] => [[c]]

/-- Python `s.split(sep)` for a one-character separator. -/
def pySplit (s : String) (sep : Char) : List String :=
  (splitOnChar sep s.toList).map String.mk

/-- Python `sep.join(parts)`. -/
def pyJoin (sep : String) : List String → String
  | [] => ""
  | [x] => x
  | x :: xs => x ++ sep ++ pyJoin sep xs

/-- Python `s[1:]`. -/
def pyTail (s : String) : String :=
  String.mk (s.toList.drop 1)

/-- Python `pre + rest == s` for some `rest`: `s.startswith(pre)`. -/
def pyStartswith (s pre : String) : Bool :=
  pre.toList.isPrefixOf s.toList

/-- Character class `[a-zA-Z0-9_\-]` of the local-name pattern. -/
def isLocalNameChar (c : Char) : Bool :=
  c.isAlphanum || c == '_' || c == '-'

/-- Whether a container name matches `^local\-([a-zA-Z0-9_\-]+)\-([0-9]+)$`.
Splitting on `-`, the name matches exactly when the first segment is the
literal `local`, the final segment is a nonempty digit run, and the middle
(rejoined with `-`, which the character class allows) is a nonempty run of
class characters. -/
def localNamePatternOk (s : String) : Bool :=
  let parts := pySplit s '-'
  3 ≤ parts.length
    && parts.headD "" == "local"
    && (let d := parts.getLastD ""
        !d.isEmpty && d.toList.all Char.isDigit)
    && (let mid := pyJoin "-" (parts.dropLast.drop 1)
        !mid.isEmpty && mid.toList.all isLocalNameChar)

/-- Embeds `get_app_name_from_container_name` (utils.py:356-362): on a pattern
match, return `"-".join(name.split("-")[:-1])` — everything before the
final dash, which keeps the `local-` prefix. -/
def get_app_name_from_container_name (container_local_name : String) : Option String :=
  if localNamePatternOk container_local_name then
    some (pyJoin "-" ((pySplit container_local_name '-').dropLast))
  else none

example : get_app_name_from_container_name "local-web-1" = some "local-web" := by decide
example : get_app_name_from_container_name "local-web-a" = none := by decide
example : get_app_name_from_container_name "web-1" = none := by decide
example : get_app_name_from_container_name "local-a-b-12" = some "local-a-b" := by decide

/-- The per-container record the builder assembles (utils.py:320-342). -/
structure ContainerConfig where
  app_name : String
  name : String
  uuid : String
  status : String
  image : String
  run_command : String
  entrypoint : String
  size : String
  exit_code : Int
  envvars : List String
  deployed : Nat
  ports : String
deriving DecidableEq, Repr

/-- The per-application aggregate (utils.py:311-315).  `deployed` is
`none` while still the initial `""` placeholder. -/
structure AppConfig where
  uuid : String
  status : String
  image : String
  container_size : String
  deployed : Option Nat
  web_hostname : String
  containers : List ContainerConfig
deriving DecidableEq, Repr

/-- Python dict assignment `m[k] = v` on a mapping modelled as an
insertion-ordered association list. -/
def assocSet (m : List (String × α)) (k : String) (v : α) : List (String × α) :=
  match m with
  | [] => [(k, v)]
  | (k', v') :: rest => if k' == k then (k, v) :: rest else (k', v') :: assocSet rest k v

/-- Python `m.get(k, 0)` on a counter dict. -/
def getCount (m : List (String × Nat)) (k : String) : Nat :=
  ((m.lookup k).getD 0)

/-- One step of the status-counting loop of `_calculate_local_app_status`:
`all_status[status] = all_status.get(status, 0) + 1`. -/
def bumpCount (m : List (String × Nat)) (k : String) : List (String × Nat) :=
  assocSet m k (getCount m k + 1)

/-- Embeds `_calculate_local_app_status` (utils.py:379-395). -/
def calculate_local_app_status (container_list : List ContainerConfig) : String :=
  let all_status := container_list.foldl (fun m c => bumpCount m c.status) []
  if getCount all_status "Running" != 0 then
    if getCount all_status "Stopped" == 0 && getCount all_status "Stopped with errors" == 0 then
      "Running"
    else
      "Partly running"
  else
    if getCount all_status "Stopped" == 0 && getCount all_status "Stopped with errors" != 0 then
      "Stopped with errors"
    else
      "Stopped"

/-- Python `" ".join(xs) if xs else ""` (a `None` or empty list gives `""`). -/
def joinWordsIfAny : Option (List String) → String
  | some l => if l.isEmpty then "" else pyJoin " " l
  | none => ""

/-- Python `s[:-2]`. -/
def pyDropLast2 (s : String) : String :=
  String.mk (s.toList.take (s.toList.length - 2))

/-- The published-ports display string (utils.py:334-341), including the
final `ports if ports else ports[:-2]` step as written. -/
def buildPortsString (pb : Option (List (String × List PortBinding))) : String :=
  let ports : String := ""
  let ports :=
    match pb with
    | none => ports
    | some bindingLists =>
      bindingLists.foldl (fun acc entry =>
        let port_number_protocol := pySplit entry.1 '/'
        entry.2.foldl (fun acc binding =>
          acc ++ binding.HostIp ++ ":" ++ binding.HostPort ++ "->"
            ++ port_number_protocol.getD 0 "" ++ "/" ++ port_number_protocol.getD 1 "" ++ ", ")
          acc)
        ports
  if !ports.isEmpty then ports else pyDropLast2 ports

/-- The body of the container loop of `get_current_apps_and_its_containers`
(utils.py:302-348) for one inspected container, threading the
`current_apps` dict.  `now` is the single `datetime.utcnow()` taken at
the start of the build. -/
def processContainer (now : Nat) (current_apps : List (String × AppConfig))
    (c : InspectedContainer) : List (String × AppConfig) :=
  match get_app_name_from_container_name (pyTail c.Name),
        get_size_from_cpu_shares c.CpuShares, get_size_from_memory c.Memory with
  | some app_name, some size_by_cpu, some size_by_memory =>
    if app_name.isEmpty || size_by_cpu != size_by_memory then
      current_apps
    else
      let app_config := (current_apps.lookup app_name).getD
        { uuid := "", status := "", image := c.Image, container_size := size_by_cpu,
          deployed := none, web_hostname := "", containers := [] }
      let container_status := if c.Running then "Running" else "Stopped"
      let container_status :=
        if container_status == "Stopped" && c.ExitCode != 0 then "Stopped with errors"
        else container_status
      let container_config : ContainerConfig :=
        { app_name := app_name, name := pyTail c.Name, uuid := c.Id,
          status := container_status, image := c.Image,
          run_command := joinWordsIfAny c.Cmd, entrypoint := joinWordsIfAny c.Entrypoint,
          size := size_by_cpu, exit_code := c.ExitCode, envvars := c.Env,
          deployed := c.Created, ports := buildPortsString c.PortBindings }
      let app_config :=
        { app_config with containers := app_config.containers ++ [container_config] }
      let app_config :=
        { app_config with
          deployed := some (if container_config.deployed < now then container_config.deployed
                            else now) }
      assocSet current_apps app_name app_config
  | _, _, _ => current_apps

/-- The final loop of `get_current_apps_and_its_containers`
(utils.py:350-351): set an aggregate's status from its members. -/
def setAggregateStatus (cfg : AppConfig) : AppConfig :=
  { cfg with status := calculate_local_app_status cfg.containers }

/-- Embeds `get_current_apps_and_its_containers` (utils.py:296-353): fold the
container loop over the engine listing, then set every aggregate's
status. -/
def get_current_apps_and_its_containers (engine : List InspectedContainer) (now : Nat) :
    List (String × AppConfig) :=
  let current_apps := engine.foldl (processContainer now) []
  current_apps.map (fun p => (p.1, setAggregateStatus p.2))

/-- What a call to `fetch_local_app_container` can do: raise (strict
mode), hand back the exception as a value (`(None, e)`, non-strict mode),
or return the unique hit — `(True, {app: app_config})` for an
application, `(False, container)` for a container.  `pyNone` is the
implicit `return None` of a Python function that falls off the end. -/
inductive LocalRes where
  | raiseNotFound
  | raiseNonUnique
  | valNotFound
  | valNonUnique
  | appHit (name : String) (cfg : AppConfig)
  | containerHit (c : ContainerConfig)
  | pyNone
deriving DecidableEq, Repr

/-- Embeds the `identified_apps` list of `fetch_local_app_container`
(utils.py:110-112): the inventory entries whose application key equals
the identifier. -/
def identifiedApps (current_apps : List (String × AppConfig)) (identifier : String) :
    List (String × AppConfig) :=
  current_apps.filter (fun p => p.1 == identifier)

/-- Embeds the `identified_containers` list of `fetch_local_app_container`
(utils.py:114-116): the containers of every application whose uuid
starts with the identifier or whose name equals it. -/
def identifiedContainers (current_apps : List (String × AppConfig)) (identifier : String) :
    List ContainerConfig :=
  (current_apps.flatMap (fun p => p.2.containers)).filter
    (fun container => pyStartswith container.uuid identifier || container.name == identifier)

/-- The match-and-classify body of `fetch_local_app_container`
(utils.py:107-132) over an already-built inventory: collect the
applications whose key equals the identifier and the containers whose
uuid starts with it or whose name equals it, then classify by the two
counts. -/
def local_lookup (current_apps : List (String × AppConfig)) (identifier : String)
    (raise_exceptions : Bool) : LocalRes :=
  let identified_apps := identifiedApps current_apps identifier
  let identified_containers := identifiedContainers current_apps identifier
  if identified_apps.length == 0 && identified_containers.length == 0 then
    if raise_exceptions then .raiseNotFound else .valNotFound
  else if identified_containers.length > 1 || identified_apps.length > 1
       || identified_apps.length == identified_containers.length then
    if raise_exceptions then .raiseNonUnique else .valNonUnique
  else if identified_apps.length == 1 then
    match identified_apps.head? with
    | some p => .appHit p.1 p.2
    | none => .pyNone
  else if identified_containers.length == 1 then
    match identified_containers.head? with
    | some c => .containerHit c
    | none => .pyNone
  else .pyNone

/-- Embeds `fetch_local_app_container` (utils.py:103-132): build the inventory
fresh, then run the lookup. -/
def fetch_local_app_container (engine : List InspectedContainer) (now : Nat)
    (identifier : String) (raise_exceptions : Bool) : LocalRes :=
  local_lookup (get_current_apps_and_its_containers engine now) identifier raise_exceptions

/-- What `fetch_app` can do: raise, return `(True, remote)`, return
`(False, local)`, or fall off the end (`None`). -/
inductive FetchAppOut (α β : Type) where
  | raiseNotFound
  | raiseNonUnique
  | remoteRet (v : PyVal α)
  | localRet (v : PyVal β)
  | pyNone
deriving DecidableEq, Repr

/-- Python `sum([not isinstance(r, Exception) for r in [remote, local]])`. -/
def resolvedCount2 (remote : PyVal α) (localr : PyVal β) : Nat :=
  (if remote.isException then 0 else 1) + (if localr.isException then 0 else 1)

/-- Embeds `fetch_app` (utils.py:135-152).  `remote` is the non-strict result of
the remote application lookup; `(is_app, localr)` the non-strict result
of the local lookup (`is_app` is `None` exactly when the local lookup
returned an exception value).  Python truthiness of `is_app` is
`is_app.getD false`. -/
def fetch_app (remote : PyVal α) (is_app : Option Bool) (localr : PyVal β) :
    FetchAppOut α β :=
  if (remote.isObjectNotFound && localr.isObjectNotFound)
     || (remote.isObjectNotFound && !localr.isException && !(is_app.getD false)) then
    .raiseNotFound
  else if remote.isNonUnique || localr.isNonUnique
       || (decide (1 < resolvedCount2 remote localr) && is_app.getD false) then
    .raiseNonUnique
  else if !remote.isObjectNotFound then
    .remoteRet remote
  else if !localr.isObjectNotFound then
    .localRet localr
  else
    .pyNone

/-- What `launch_queries_in_parallel` can do: raise, return
`(True, True, app)`, `(True, False, container)`,
`(False, is_app, local_result)`, or the final `return None, None`. -/
inductive RecOut (α β : Type) where
  | raiseNotFound
  | raiseNonUnique
  | remoteApp (v : PyVal α)
  | remoteContainer (v : PyVal α)
  | localObj (is_app : Option Bool) (v : PyVal β)
  | noneNone
deriving DecidableEq, Repr

/-- Python `sum([not isinstance(r, Exception) for r in [app, container, local_result]])`. -/
def resolvedCount3 (app container : PyVal α) (localr : PyVal β) : Nat :=
  (if app.isException then 0 else 1) + (if container.isException then 0 else 1)
    + (if localr.isException then 0 else 1)

/-- The merge step of `launch_queries_in_parallel` (utils.py:218-237),
taking the three joined non-strict results: the remote application
lookup `app`, the remote container lookup `container`, and the local
lookup `(is_app, local_result)`. -/
def launch_queries_in_parallel (app container : PyVal α) (is_app : Option Bool)
    (local_result : PyVal β) : RecOut α β :=
  if app.isObjectNotFound && container.isObjectNotFound && local_result.isObjectNotFound then
    .raiseNotFound
  else if app.isNonUnique || container.isNonUnique || local_result.isNonUnique
       || decide (1 < resolvedCount3 app container local_result) then
    .raiseNonUnique
  else if !app.isObjectNotFound then
    .remoteApp app
  else if !container.isObjectNotFound then
    .remoteContainer container
  else if !local_result.isObjectNotFound then
    .localObj is_app local_result
  else
    .noneNone

/-- What a strict-mode SDK resolver call (`tutum.Utils.fetch_remote_service`
/ `fetch_remote_nodecluster` / `fetch_remote_node`) can do for `tag_add`:
return the object, raise `ObjectNotFound`, raise `NonUniqueIdentifier`,
or raise some other error. -/
inductive KindFetch (α : Type) where
  | ok (a : α)
  | raiseObjectNotFound
  | raiseNonUnique
  | raiseOther
deriving DecidableEq, Repr

/-- Outcome of the nested resolution in `tag_add`: the resolved object
tagged with the kind that produced it, the combined does-not-match
error, or a propagated non-NotFound exception. -/
inductive TagResolve (α : Type) where
  | service (a : α)
  | nodecluster (a : α)
  | node (a : α)
  | combinedNotFound
  | errNonUnique
  | errOther
deriving DecidableEq, Repr

/-- The nested try/except resolution of `tag_add` (commands.py:1266-1276):
try Service, on `ObjectNotFound` try NodeCluster, on `ObjectNotFound`
try Node, on `ObjectNotFound` raise the combined error; any other
exception from any level propagates at once. -/
def tag_add_resolve (svc nc nd : KindFetch α) : TagResolve α :=
  match svc with
  | .ok a => .service a
  | .raiseNonUnique => .errNonUnique
  | .raiseOther => .errOther
  | .raiseObjectNotFound =>
    match nc with
    | .ok a => .nodecluster a
    | .raiseNonUnique => .errNonUnique
    | .raiseOther => .errOther
    | .raiseObjectNotFound =>
      match nd with
      | .ok a => .node a
      | .raiseNonUnique => .errNonUnique
      | .raiseOther => .errOther
      | .raiseObjectNotFound => .combinedNotFound

/-- A managed engine container: XS-sized, with only the claim-relevant
fields varying. -/
def mkEngineContainer (name id : String) (running : Bool) (exitCode : Int)
    (created : Nat) : InspectedContainer :=
  { Name := name, Id := id, Image := "tutum/app", Cmd := none, Entrypoint := none,
    CpuShares := 256, Memory := 268435456, Env := [], Running := running,
    ExitCode := exitCode, Created := created, PortBindings := none }

/-- Engine state of spec §8.2: `local-web-1`, `local-web-2`, `local-db-1`. -/
def engineWebDb : List InspectedContainer :=
  [mkEngineContainer "/local-web-1" "aaa111" true 0 10,
   mkEngineContainer "/local-web-2" "bbb222" true 0 11,
   mkEngineContainer "/local-db-1" "ccc333" true 0 12]

/-- Engine state with two containers of one application, created at
instants 5 and 10, listed oldest first. -/
def engineDeployedDemo : List InspectedContainer :=
  [mkEngineContainer "/local-web-1" "aaa111" true 0 5,
   mkEngineContainer "/local-web-2" "bbb222" true 0 10]

/-- The aggregate the builder produces for `local-web` from
`engineDeployedDemo` at instant 100. -/
def demoWebCfg : AppConfig :=
  ((get_current_apps_and_its_containers engineDeployedDemo 100).lookup "local-web").getD
    { uuid := "", status := "", image := "", container_size := "",
      deployed := none, web_hostname := "", containers := [] }

/-- A full canonical version-4 UUID. -/
def fullUuidIdentifier : String := "12345678-1234-4123-8123-123456789012"

/-- Modelled from the spec: the §4.5 uniqueness predicate applied to the
two channels of `fetch_app` (remote-application lookup, local lookup):
both NotFound gives NotFound; any NonUnique or more than one resolved
gives NonUnique; else the single resolved channel is returned.  Used
only to compare the spec's words with the source's `fetch_app`. -/
def spec_dual_channel_merge (remote : PyVal α) (localr : PyVal β) : FetchAppOut α β :=
  if remote.isObjectNotFound && localr.isObjectNotFound then .raiseNotFound
  else if remote.isNonUnique || localr.isNonUnique
       || (!remote.isException && !localr.isException) then .raiseNonUnique
  else if !remote.isException then .remoteRet remote
  else .localRet localr

/-- Equality on modelled call results (`Except`) is decidable. -/
instance instDecEqExcept {ε α : Type} [DecidableEq ε] [DecidableEq α] :
    DecidableEq (Except ε α) := fun x y =>
  match x, y with
  | .ok a, .ok b =>
    if h : a = b then isTrue (by rw [h]) else isFalse (fun hh => h (Except.ok.inj hh))
  | .error a, .error b =>
    if h : a = b then isTrue (by rw [h]) else isFalse (fun hh => h (Except.error.inj hh))
  | .ok _, .error _ => isFalse (fun hh => Except.noConfusion hh)
  | .error _, .ok _ => isFalse (fun hh => Except.noConfusion hh)

/-!  ## Theorems  -/

/-- C1: Dual-Source Reconciler merge contract — `launch_queries_in_parallel`
raises NotFound iff all three non-strict outcomes are NotFound; raises
NonUnique iff some outcome is NonUnique or more than one resolved; and
otherwise returns the single resolved object tagged with its provenance
(Remote+IsApplication, Remote+IsContainer, or Local with the local
is-application tag). -/
theorem launch_queries_merge_contract {α β : Type} (app container : PyVal α)
    (is_app : Option Bool) (localr : PyVal β) :
    (launch_queries_in_parallel app container is_app localr = RecOut.raiseNotFound ↔
      app = PyVal.objectNotFound ∧ container = PyVal.objectNotFound
        ∧ localr = PyVal.objectNotFound)
  ∧ (launch_queries_in_parallel app container is_app localr = RecOut.raiseNonUnique ↔
      (app = PyVal.nonUniqueId ∨ container = PyVal.nonUniqueId ∨ localr = PyVal.nonUniqueId
        ∨ 1 < resolvedCount3 app container localr))
  ∧ (∀ a : α, app = PyVal.obj a → container = PyVal.objectNotFound →
      localr = PyVal.objectNotFound →
      launch_queries_in_parallel app container is_app localr = RecOut.remoteApp (PyVal.obj a))
  ∧ (∀ a : α, container = PyVal.obj a → app = PyVal.objectNotFound →
      localr = PyVal.objectNotFound →
      launch_queries_in_parallel app container is_app localr
        = RecOut.remoteContainer (PyVal.obj a))
  ∧ (∀ b : β, localr = PyVal.obj b → app = PyVal.objectNotFound →
      container = PyVal.objectNotFound →
      launch_queries_in_parallel app container is_app localr
        = RecOut.localObj is_app (PyVal.obj b)) := by
  cases app <;> cases container <;> cases localr <;>
    simp [launch_queries_in_parallel, resolvedCount3,
      PyVal.isObjectNotFound, PyVal.isNonUnique, PyVal.isException]

/-- C9: the tag commands resolve Service first, then NodeCluster, then
Node, each strict; NotFound moves to the next kind, success or NonUnique
stops immediately (the result does not depend on the later kinds), and
three NotFounds give the combined error. -/
theorem tag_add_resolution_order {α : Type} (svc nc nd nc' nd' : KindFetch α) :
    (∀ a : α, svc = KindFetch.ok a → tag_add_resolve svc nc nd = TagResolve.service a)
  ∧ (svc = KindFetch.raiseNonUnique → tag_add_resolve svc nc nd = TagResolve.errNonUnique)
  ∧ (svc ≠ KindFetch.raiseObjectNotFound →
      tag_add_resolve svc nc nd = tag_add_resolve svc nc' nd')
  ∧ (∀ a : α, svc = KindFetch.raiseObjectNotFound → nc = KindFetch.ok a →
      tag_add_resolve svc nc nd = TagResolve.nodecluster a)
  ∧ (svc = KindFetch.raiseObjectNotFound → nc = KindFetch.raiseNonUnique →
      tag_add_resolve svc nc nd = TagResolve.errNonUnique)
  ∧ (svc = KindFetch.raiseObjectNotFound → nc ≠ KindFetch.raiseObjectNotFound →
      tag_add_resolve svc nc nd = tag_add_resolve svc nc nd')
  ∧ (∀ a : α, svc = KindFetch.raiseObjectNotFound → nc = KindFetch.raiseObjectNotFound →
      nd = KindFetch.ok a → tag_add_resolve svc nc nd = TagResolve.node a)
  ∧ (svc = KindFetch.raiseObjectNotFound → nc = KindFetch.raiseObjectNotFound →
      nd = KindFetch.raiseNonUnique → tag_add_resolve svc nc nd = TagResolve.errNonUnique)
  ∧ (svc = KindFetch.raiseObjectNotFound → nc = KindFetch.raiseObjectNotFound →
      nd = KindFetch.raiseObjectNotFound →
      tag_add_resolve svc nc nd = TagResolve.combinedNotFound) := by
  cases svc <;> cases nc <;> cases nd <;> simp [tag_add_resolve]

/-- C3 counterexample: with the exact-name query returning one object and
the uuid-prefix query another, the union has two elements — the spec's
union rule says NonUnique — but the source resolves the exact-name hit,
because the Python `or` keeps only the first non-empty result set. -/
theorem remote_union_counterexample :
    fetch_remote_app "web" true (Except.error ApiErr.notFoundErr)
      (Except.ok [0]) (Except.ok [(1 : Nat)]) = Except.ok (PyVal.obj 0)
  ∧ spec_union_outcome [0] [(1 : Nat)] = PyVal.nonUniqueId
  ∧ (PyVal.obj 0 : PyVal Nat) ≠ PyVal.nonUniqueId := by
  decide

/-- C3 amended: for identifiers not classified as UUID4, the outcome is
determined by the exact-name result set alone whenever it is non-empty,
and by the uuid-prefix result set otherwise (first-nonempty-wins, not
the union); on the chosen set, zero results give NotFound, one gives the
object, more give NonUnique — and when the first query has results, the
second query's answer (even an error) is irrelevant. -/
theorem remote_search_first_match {α : Type} (identifier : String) (re : Bool)
    (f : Except ApiErr α) (nameQ uuidQ : List α) (h : is_uuid4 identifier = false) :
    (fetch_remote_app identifier re f (Except.ok nameQ) (Except.ok uuidQ) =
      (match (if nameQ.isEmpty then uuidQ else nameQ) with
       | [x] => Except.ok (PyVal.obj x)
       | [] => if re then Except.error PyErr.objectNotFound else Except.ok PyVal.objectNotFound
       | _ => if re then Except.error PyErr.nonUniqueIdentifier else Except.ok PyVal.nonUniqueId))
  ∧ (fetch_remote_container identifier re f (Except.ok nameQ) (Except.ok uuidQ) =
      (match (if nameQ.isEmpty then uuidQ else nameQ) with
       | [x] => Except.ok (PyVal.obj x)
       | [] => if re then Except.error PyErr.objectNotFound else Except.ok PyVal.objectNotFound
       | _ => if re then Except.error PyErr.nonUniqueIdentifier else Except.ok PyVal.nonUniqueId))
  ∧ (∀ uuidQ' : Except ApiErr (List α), nameQ ≠ [] →
      fetch_remote_app identifier re f (Except.ok nameQ) uuidQ' =
        fetch_remote_app identifier re f (Except.ok nameQ) (Except.ok uuidQ))
  ∧ (∀ uuidQ' : Except ApiErr (List α), nameQ ≠ [] →
      fetch_remote_container identifier re f (Except.ok nameQ) uuidQ' =
        fetch_remote_container identifier re f (Except.ok nameQ) (Except.ok uuidQ)) := by
  refine ⟨?_, ?_, ?_, ?_⟩ <;>
    (cases nameQ with
     | nil =>
       cases uuidQ with
       | nil => simp [fetch_remote_app, fetch_remote_container, h]
       | cons x xs => cases xs <;> simp [fetch_remote_app, fetch_remote_container, h]
     | cons x xs => cases xs <;> simp [fetch_remote_app, fetch_remote_container, h])

/-- C3 witness for the amended theorem: a concrete non-UUID identifier
with a single exact-name hit resolves that hit. -/
theorem remote_search_first_match_witness :
    fetch_remote_app "web" true (Except.error ApiErr.notFoundErr)
      (Except.ok [(0 : Nat)]) (Except.ok [1]) = Except.ok (PyVal.obj 0) := by
  have h := (remote_search_first_match "web" true (Except.error ApiErr.notFoundErr)
    [(0 : Nat)] [1] (by decide)).1
  simpa using h

/-- C4 counterexample: a transport-level error raised by the fetch-by-id
capability for a full UUID4 identifier is converted by the resolver into
`ObjectNotFound` instead of propagating. -/
theorem transport_downgrade_counterexample :
    fetch_remote_app fullUuidIdentifier true (Except.error ApiErr.transportErr)
      (Except.ok ([] : List Nat)) (Except.ok []) = Except.error PyErr.objectNotFound
  ∧ (Except.error PyErr.objectNotFound : Except PyErr (PyVal Nat))
      ≠ Except.error (PyErr.api ApiErr.transportErr) := by
  decide

/-- C4 amended: in the search branch (identifier not UUID4-shaped) any
error from either list query propagates unchanged out of
`fetch_remote_app` / `fetch_remote_container` in both strict and
non-strict mode; but in the fetch-by-id branch every fetch failure —
transport errors included — is converted into `ObjectNotFound` (raised
in strict mode, returned as a value otherwise). -/
theorem transport_error_propagation {α : Type} (identifier : String) (re : Bool)
    (f : Except ApiErr α) (e : ApiErr) (uuidQ : Except ApiErr (List α)) :
    (is_uuid4 identifier = false →
      fetch_remote_app identifier re f (Except.error e) uuidQ = Except.error (PyErr.api e)
    ∧ fetch_remote_container identifier re f (Except.error e) uuidQ
        = Except.error (PyErr.api e)
    ∧ fetch_remote_app identifier re f (Except.ok []) (Except.error e)
        = Except.error (PyErr.api e)
    ∧ fetch_remote_container identifier re f (Except.ok []) (Except.error e)
        = Except.error (PyErr.api e))
  ∧ (is_uuid4 identifier = true →
      fetch_remote_app identifier re (Except.error e) (Except.ok []) uuidQ
        = (if re then Except.error PyErr.objectNotFound else Except.ok PyVal.objectNotFound)
    ∧ fetch_remote_container identifier re (Except.error e) (Except.ok []) uuidQ
        = (if re then Except.error PyErr.objectNotFound else Except.ok PyVal.objectNotFound)) := by
  constructor
  · intro h
    refine ⟨?_, ?_, ?_, ?_⟩ <;> simp [fetch_remote_app, fetch_remote_container, h]
  · intro h
    constructor <;> cases re <;> simp [fetch_remote_app, fetch_remote_container, h]

/-- Looking a key up after a dict assignment: the assigned key sees the
new value, every other key is untouched. -/
theorem lookup_assocSet {α : Type} (m : List (String × α)) (k k' : String) (v : α) :
    (assocSet m k v).lookup k' = if k' = k then some v else m.lookup k' := by
  induction m with
  | nil =>
    cases hbe : k' == k
    · simp [assocSet, List.lookup_cons, hbe, ne_of_beq_false hbe]
    · simp [assocSet, List.lookup_cons, hbe, eq_of_beq hbe]
  | cons p rest ih =>
    obtain ⟨a, b⟩ := p
    cases hak : a == k
    · cases hka : k' == a
      · simp [assocSet, hak, List.lookup_cons, hka, ih]
      · have h1 : k' = a := eq_of_beq hka
        have h2 : ¬(k' = k) := fun hh => (ne_of_beq_false hak) (h1 ▸ hh)
        simp [assocSet, hak, List.lookup_cons, hka, h2]
    · have hak' : a = k := eq_of_beq hak
      subst hak'
      cases hka : k' == a
      · simp [assocSet, List.lookup_cons, hka, ne_of_beq_false hka]
      · simp [assocSet, List.lookup_cons, hka, eq_of_beq hka]

/-- Bumping one status leaves every count in place except that status's,
which grows by one. -/
theorem getCount_bumpCount (m : List (String × Nat)) (s k : String) :
    getCount (bumpCount m s) k = getCount m k + (if k = s then 1 else 0) := by
  by_cases h : k = s <;> simp [bumpCount, getCount, lookup_assocSet, h]

/-- The status-counting fold of `_calculate_local_app_status` counts
occurrences: afterwards each status's entry is its multiplicity in the
member statuses. -/
theorem getCount_statusFold (l : List ContainerConfig) (acc : List (String × Nat))
    (k : String) :
    getCount (l.foldl (fun m c => bumpCount m c.status) acc) k =
      getCount acc k + (l.map ContainerConfig.status).count k := by
  induction l generalizing acc with
  | nil => simp
  | cons c rest ih =>
    simp only [List.foldl_cons, List.map_cons, ih, getCount_bumpCount, List.count_cons]
    rcases eq_or_ne k c.status with h | h
    · subst h
      simp [Nat.add_comm, Nat.add_assoc, Nat.add_left_comm]
    · simp [h, Ne.symm h]

/-- Special case of `getCount_statusFold` starting from the empty dict. -/
theorem getCount_statusFold_nil (l : List ContainerConfig) (k : String) :
    getCount (l.foldl (fun m c => bumpCount m c.status) []) k =
      (l.map ContainerConfig.status).count k := by
  have h := getCount_statusFold l [] k
  simpa [getCount] using h

/-- C8: aggregate status formula — over the member statuses, the computed
status is Running iff some member is Running and none is Stopped or
Stopped-with-errors; Partly running iff some member is Running and some
member is Stopped or Stopped-with-errors; with no Running member, Stopped
with errors iff some member is Stopped-with-errors and none plain
Stopped, else Stopped. -/
theorem local_app_status_formula (l : List ContainerConfig) (hne : l ≠ []) :
    (calculate_local_app_status l = "Running" ↔
      0 < (l.map ContainerConfig.status).count "Running"
        ∧ (l.map ContainerConfig.status).count "Stopped" = 0
        ∧ (l.map ContainerConfig.status).count "Stopped with errors" = 0)
  ∧ (calculate_local_app_status l = "Partly running" ↔
      0 < (l.map ContainerConfig.status).count "Running"
        ∧ (0 < (l.map ContainerConfig.status).count "Stopped"
           ∨ 0 < (l.map ContainerConfig.status).count "Stopped with errors"))
  ∧ ((l.map ContainerConfig.status).count "Running" = 0 →
      ((calculate_local_app_status l = "Stopped with errors" ↔
         0 < (l.map ContainerConfig.status).count "Stopped with errors"
           ∧ (l.map ContainerConfig.status).count "Stopped" = 0)
     ∧ (calculate_local_app_status l = "Stopped" ↔
         ((l.map ContainerConfig.status).count "Stopped" ≠ 0
           ∨ (l.map ContainerConfig.status).count "Stopped with errors" = 0)))) := by
  unfold calculate_local_app_status
  simp only [getCount_statusFold_nil]
  generalize (l.map ContainerConfig.status).count "Running" = nR
  generalize (l.map ContainerConfig.status).count "Stopped" = nS
  generalize (l.map ContainerConfig.status).count "Stopped with errors" = nE
  by_cases h1 : nR = 0 <;> by_cases h2 : nS = 0 <;> by_cases h3 : nE = 0 <;>
    simp [h1, h2, h3] <;> omega

/-- C8 witness: a one-member Running aggregate computes status Running. -/
theorem local_app_status_formula_witness :
    calculate_local_app_status
      [{ app_name := "local-web", name := "local-web-1", uuid := "aaa111",
         status := "Running", image := "tutum/app", run_command := "", entrypoint := "",
         size := "XS", exit_code := 0, envvars := [], deployed := 10, ports := "" }]
      = "Running" := by
  have h := (local_app_status_formula
    [{ app_name := "local-web", name := "local-web-1", uuid := "aaa111",
       status := "Running", image := "tutum/app", run_command := "", entrypoint := "",
       size := "XS", exit_code := 0, envvars := [], deployed := 10, ports := "" }]
    (by decide)).1
  exact h.mpr (by decide)

/-- C6 counterexample: with the remote-application channel resolved and
the local channel resolved as a container, the §4.5 predicate gives
NonUnique, but `fetch_app` returns the remote object. -/
theorem fetch_app_dual_resolved_counterexample :
    fetch_app (PyVal.obj (0 : Nat)) (some false) (PyVal.obj (1 : Nat))
      = FetchAppOut.remoteRet (PyVal.obj 0)
  ∧ spec_dual_channel_merge (PyVal.obj (0 : Nat)) (PyVal.obj (1 : Nat))
      = (FetchAppOut.raiseNonUnique : FetchAppOut Nat Nat)
  ∧ (FetchAppOut.remoteRet (PyVal.obj 0) : FetchAppOut Nat Nat)
      ≠ FetchAppOut.raiseNonUnique := by
  decide

/-- C6 amended: `fetch_app` raises NotFound iff the remote channel is
NotFound and the local channel is NotFound or resolved as a container;
raises NonUnique iff either channel is NonUnique, or both channels
resolved with the local hit an application; returns the remote object
whenever the remote channel resolved and the local channel is neither
NonUnique nor an application hit; and returns the local hit only when it
is an application and the remote channel is NotFound.  (`is_app` is
`none` when the local channel returned an exception value.) -/
theorem fetch_app_contract {α β : Type} (remote : PyVal α) (is_app : Option Bool)
    (localr : PyVal β) :
    (fetch_app remote is_app localr = FetchAppOut.raiseNotFound ↔
      remote = PyVal.objectNotFound
        ∧ (localr = PyVal.objectNotFound
           ∨ (localr.isException = false ∧ is_app.getD false = false)))
  ∧ (fetch_app remote is_app localr = FetchAppOut.raiseNonUnique ↔
      (remote = PyVal.nonUniqueId ∨ localr = PyVal.nonUniqueId
        ∨ (remote.isException = false ∧ localr.isException = false
           ∧ is_app.getD false = true)))
  ∧ (∀ a : α, remote = PyVal.obj a →
      (localr = PyVal.objectNotFound
        ∨ (localr.isException = false ∧ is_app.getD false = false)) →
      fetch_app remote is_app localr = FetchAppOut.remoteRet (PyVal.obj a))
  ∧ (∀ b : β, remote = PyVal.objectNotFound → localr = PyVal.obj b →
      is_app.getD false = true →
      fetch_app remote is_app localr = FetchAppOut.localRet (PyVal.obj b)) := by
  rcases is_app with _ | b
  · cases remote <;> cases localr <;>
      simp [fetch_app, resolvedCount2, PyVal.isObjectNotFound, PyVal.isNonUnique,
        PyVal.isException]
  · cases b <;> cases remote <;> cases localr <;>
      simp [fetch_app, resolvedCount2, PyVal.isObjectNotFound, PyVal.isNonUnique,
        PyVal.isException]

/-- C7: Local Resolver uniqueness predicate — over any inventory,
`local_lookup` (the body of `fetch_local_app_container`) raises NotFound
iff both match lists are empty; raises NonUnique iff the application
matches exceed one, or the container matches exceed one, or both counts
are exactly one; and otherwise returns the unique match, tagged as an
application (`appHit`, the Python `(True, …)`) or as a container
(`containerHit`, the Python `(False, …)`), where the match lists are the
applications equal to the identifier by name and the containers matching
by uuid prefix or exact name (`identifiedApps` / `identifiedContainers`). -/
theorem fetch_local_uniqueness_contract (current_apps : List (String × AppConfig))
    (identifier : String) :
    (local_lookup current_apps identifier true = LocalRes.raiseNotFound ↔
      (identifiedApps current_apps identifier).length = 0
        ∧ (identifiedContainers current_apps identifier).length = 0)
  ∧ (local_lookup current_apps identifier true = LocalRes.raiseNonUnique ↔
      (1 < (identifiedApps current_apps identifier).length
        ∨ 1 < (identifiedContainers current_apps identifier).length
        ∨ ((identifiedApps current_apps identifier).length = 1
            ∧ (identifiedContainers current_apps identifier).length = 1)))
  ∧ (∀ name cfg, identifiedApps current_apps identifier = [(name, cfg)] →
      (identifiedContainers current_apps identifier).length = 0 →
      local_lookup current_apps identifier true = LocalRes.appHit name cfg)
  ∧ (∀ c, (identifiedApps current_apps identifier).length = 0 →
      identifiedContainers current_apps identifier = [c] →
      local_lookup current_apps identifier true = LocalRes.containerHit c) := by
  rcases hA : identifiedApps current_apps identifier with _ | ⟨a, (_ | ⟨a2, A2⟩)⟩ <;>
    rcases hC : identifiedContainers current_apps identifier with _ | ⟨c, (_ | ⟨c2, C2⟩)⟩ <;>
      simp [local_lookup, hA, hC]
  rintro name cfg rfl
  exact ⟨rfl, rfl⟩

/-- Python `s.startswith("")` is always true. -/
theorem pyStartswith_empty (s : String) : pyStartswith s "" = true := by
  simp [pyStartswith]

/-- C10: at the Local Resolver, the empty identifier matches every
container of the inventory (the container test is a uuid-prefix test);
hence with two or more containers in the inventory the strict lookup
raises NonUnique, and with exactly one container (and no application
whose key is the empty string) it resolves that container as a
container hit. -/
theorem empty_identifier_local_contract (current_apps : List (String × AppConfig)) :
    (identifiedContainers current_apps "" = current_apps.flatMap (fun p => p.2.containers))
  ∧ (2 ≤ (current_apps.flatMap (fun p => p.2.containers)).length →
      local_lookup current_apps "" true = LocalRes.raiseNonUnique)
  ∧ (∀ c, (∀ p ∈ current_apps, p.1 ≠ "") →
      current_apps.flatMap (fun p => p.2.containers) = [c] →
      local_lookup current_apps "" true = LocalRes.containerHit c) := by
  have hCeq : identifiedContainers current_apps ""
      = current_apps.flatMap (fun p => p.2.containers) := by
    unfold identifiedContainers
    rw [List.filter_eq_self]
    intro a _
    simp [pyStartswith_empty]
  refine ⟨hCeq, ?_, ?_⟩
  · intro h2
    generalize hL : current_apps.flatMap (fun p => p.2.containers) = L at hCeq h2
    have h0 : ¬(L.length = 0) := by omega
    have h1 : 1 < L.length := by omega
    simp [local_lookup, hCeq, h0, h1]
  · intro c hk hflat
    have hAeq : identifiedApps current_apps "" = [] := by
      unfold identifiedApps
      rw [List.filter_eq_nil_iff]
      intro p hp
      simp [hk p hp]
    simp [local_lookup, hAeq, hCeq, hflat]

/-- C2 counterexample: for containers named `local-web-1`, `local-web-2`,
`local-db-1`, the builder produces no aggregate keyed `web` or `db`; the
keys are `local-web` and `local-db`, because the parsed key keeps the
`local-` prefix. -/
theorem local_grouping_key_counterexample :
    (get_current_apps_and_its_containers engineWebDb 100).map Prod.fst
      = ["local-web", "local-db"]
  ∧ (get_current_apps_and_its_containers engineWebDb 100).lookup "web" = none
  ∧ (get_current_apps_and_its_containers engineWebDb 100).lookup "db" = none
  ∧ get_app_name_from_container_name "local-web-1" = some "local-web" := by
  decide

/-- C2 amended: for a local engine state whose containers are named
`local-web-1`, `local-web-2`, `local-db-1` (matching size buckets),
`build()` produces exactly two aggregates, keyed `local-web` (2
containers) and `local-db` (1 container): the key is the container name
minus the trailing `-<index>`, so it retains the `local-` prefix. -/
theorem local_grouping_key_amended :
    (get_current_apps_and_its_containers engineWebDb 100).map
      (fun p => (p.1, p.2.containers.length)) = [("local-web", 2), ("local-db", 1)] := by
  decide

/-- C5 counterexample: two containers of one application created at 5
and 10 with "now" 100 — the aggregate's deployed instant is 10 (the last
member processed), not the member minimum 5. -/
theorem deployed_time_counterexample :
    ((get_current_apps_and_its_containers engineDeployedDemo 100).lookup "local-web").map
       AppConfig.deployed = some (some 10)
  ∧ ((get_current_apps_and_its_containers engineDeployedDemo 100).lookup "local-web").map
       (fun cfg => (cfg.containers.map ContainerConfig.deployed).foldr min 100) = some 5
  ∧ (10 : Nat) ≠ 5 := by
  decide

/-- Every entry of a dict after an assignment is the new binding or one
of the old entries. -/
theorem mem_assocSet {α : Type} (m : List (String × α)) (k : String) (v : α)
    (p : String × α) (hp : p ∈ assocSet m k v) : p = (k, v) ∨ p ∈ m := by
  induction m with
  | nil => simpa [assocSet] using hp
  | cons q rest ih =>
    obtain ⟨a, b⟩ := q
    cases hak : a == k
    · simp only [assocSet, hak, Bool.false_eq_true, if_false, List.mem_cons] at hp
      rcases hp with h | h
      · exact Or.inr (List.mem_cons.mpr (Or.inl h))
      · rcases ih h with h' | h'
        · exact Or.inl h'
        · exact Or.inr (List.mem_cons.mpr (Or.inr h'))
    · simp only [assocSet, hak, if_true, List.mem_cons] at hp
      rcases hp with h | h
      · exact Or.inl h
      · exact Or.inr (List.mem_cons.mpr (Or.inr h))

/-- The builder invariant behind C5: an aggregate's deployed instant is
computed from the container appended last (capped at the invocation
instant), not from the minimum over members. -/
def lastDeployedOk (now : Nat) (cfg : AppConfig) : Prop :=
  ∃ c, cfg.containers.getLast? = some c
     ∧ cfg.deployed = some (if c.deployed < now then c.deployed else now)

/-- One builder step keeps the last-member-deployed invariant. -/
theorem processContainer_preserves (now : Nat) (acc : List (String × AppConfig))
    (c : InspectedContainer) (hacc : ∀ p ∈ acc, lastDeployedOk now p.2) :
    ∀ p ∈ processContainer now acc c, lastDeployedOk now p.2 := by
  intro p hp
  simp only [processContainer] at hp
  split at hp
  case _ app_name size_by_cpu size_by_memory _ _ _ =>
    split at hp
    · exact hacc p hp
    · rcases mem_assocSet _ _ _ _ hp with h | h
      · subst h
        exact ⟨_, List.getLast?_concat _, rfl⟩
      · exact hacc p h
  case _ => exact hacc p hp

/-- The whole builder fold keeps the last-member-deployed invariant. -/
theorem builderFold_lastDeployedOk (now : Nat) (engine : List InspectedContainer)
    (acc : List (String × AppConfig)) (hacc : ∀ p ∈ acc, lastDeployedOk now p.2) :
    ∀ p ∈ engine.foldl (processContainer now) acc, lastDeployedOk now p.2 := by
  induction engine generalizing acc with
  | nil => simpa using hacc
  | cons c rest ih =>
    exact ih _ (processContainer_preserves now acc c hacc)

/-- Looking up in a per-value-mapped dict is mapping the lookup. -/
theorem lookup_map_value {α β : Type} (f : α → β) (m : List (String × α)) (k : String) :
    (m.map (fun p => (p.1, f p.2))).lookup k = (m.lookup k).map f := by
  induction m with
  | nil => simp
  | cons p rest ih =>
    obtain ⟨a, b⟩ := p
    cases hak : k == a <;> simp [List.lookup_cons, hak, ih]

/-- A successful dict lookup names an entry of the dict. -/
theorem mem_of_lookup_eq_some {α : Type} {m : List (String × α)} {k : String} {v : α}
    (h : m.lookup k = some v) : (k, v) ∈ m := by
  induction m with
  | nil => simp at h
  | cons p rest ih =>
    obtain ⟨a, b⟩ := p
    cases hak : k == a
    · simp only [List.lookup_cons, hak] at h
      exact List.mem_cons.mpr (Or.inr (ih h))
    · simp only [List.lookup_cons, hak, Option.some.injEq] at h
      subst h
      exact (eq_of_beq hak) ▸ List.mem_cons.mpr (Or.inl rfl)

/-- C5 amended: for every engine state and invocation instant, every
aggregate's deployed time equals the creation time of the member
container processed last, capped above by the invocation instant — the
assignment at utils.py:345-346 overwrites instead of accumulating a
minimum, so earlier members do not contribute. -/
theorem deployed_time_last_member (engine : List InspectedContainer) (now : Nat)
    (app : String) (cfg : AppConfig)
    (h : (get_current_apps_and_its_containers engine now).lookup app = some cfg) :
    ∃ c, cfg.containers.getLast? = some c
       ∧ cfg.deployed = some (if c.deployed < now then c.deployed else now) := by
  unfold get_current_apps_and_its_containers at h
  rw [lookup_map_value] at h
  rcases Option.map_eq_some'.mp h with ⟨orig, horig, hcfg⟩
  have hmem := mem_of_lookup_eq_some horig
  have hinv := builderFold_lastDeployedOk now engine [] (by simp) _ hmem
  rcases hinv with ⟨c, hlast, hdep⟩
  refine ⟨c, ?_, ?_⟩
  · rw [← hcfg]
    exact hlast
  · rw [← hcfg]
    exact hdep

/-- C5 witness: checks the amended statement on the two-container demo
engine at instant 100. -/
theorem deployed_time_last_member_witness :
    ∃ c, demoWebCfg.containers.getLast? = some c
       ∧ demoWebCfg.deployed = some (if c.deployed < 100 then c.deployed else 100) :=
  deployed_time_last_member engineDeployedDemo 100 "local-web" demoWebCfg (by decide)

end TutumCli
